import Mathlib

/-!
Verification development for the bc2411 weekly-scheduler core.

The Python sources are shallowly embedded as follows.

* Naive local datetimes are integers: microseconds counted from local midnight
  of day 0 (the reference `now.replace(hour=0, minute=0, second=0, microsecond=0)`).
  Python `timedelta` arithmetic is exact integer microsecond arithmetic, so
  datetime sums and differences are plain integer sums and differences.
* Python `//` and `%` on these quantities always occur with a positive divisor,
  where Python floor semantics agree with the mathematical (Euclidean)
  `Int./` and `Int.%` used here.
* `datetime.hour` and `datetime.minute` of a naive datetime are recovered from
  the microsecond count by `dtHour` and `dtMinute` below.
* Fallible code (Python `raise`) is modelled with `Option` or `Except`.
* The Gurobi MILP engine is an external collaborator: the read-back phase of
  the solver driver is embedded as a function of an abstract 0/1 solution
  `sol : ℕ → ℕ → Bool`, where `sol i s` stands for `X[i, s].X > 0.5`.
-/

set_option maxHeartbeats 2000000
set_option maxRecDepth 8192

namespace Sched

/-- Microseconds per minute. -/
def usPerMin : ℤ := 60000000

/-- Microseconds per hour (60 * usPerMin). -/
def usPerHour : ℤ := 3600000000

/-- Microseconds per day (24 * usPerHour). -/
def usPerDay : ℤ := 86400000000

/-- The `.hour` field of a naive local datetime given in microseconds from
day-0 midnight (hours are counted within the calendar day). -/
def dtHour (dt : ℤ) : ℤ := dt % usPerDay / usPerHour

/-- The `.minute` field of a naive local datetime given in microseconds from
day-0 midnight. -/
def dtMinute (dt : ℤ) : ℤ := dt % usPerHour / usPerMin

/-- Python `str.lower()` restricted to what the sources feed it (ASCII
preference names). -/
def lowerStr (s : String) : String := String.mk (s.data.map Char.toLower)

/-!
## Fixed-grid time helpers, from `allocation_logic.py`

`SLOTS_PER_DAY = 56`, `TOTAL_DAYS = 7`, `TOTAL_SLOTS = 392`; day 0 is "today
at 08:00 local" (480 minutes past day-0 midnight).
-/

namespace AllocationLogic

/-- Slots per day: (22 - 8) hours * 4 slots/hour. -/
def SLOTS_PER_DAY : ℤ := 56

def TOTAL_DAYS : ℤ := 7

def TOTAL_SLOTS : ℤ := SLOTS_PER_DAY * TOTAL_DAYS

def GRID_END_HOUR : ℤ := 22

/-- Python `get_day0()`: today at 08:00 local time, as microseconds from midnight. -/
def day0 : ℤ := 8 * usPerHour

/-- Function `slot_to_datetime` of `allocation_logic.py` (lines 42-64).  Returns the
start time of the slot; the sentinel `slot = TOTAL_SLOTS` maps to
`day0 + 7 days`; any other out-of-range index raises (`none`). -/
def slot_to_datetime (slot : ℤ) : Option ℤ :=
  if 0 ≤ slot ∧ slot < TOTAL_SLOTS then
    some (day0 + slot / SLOTS_PER_DAY * usPerDay + slot % SLOTS_PER_DAY * 15 * usPerMin)
  else if slot = TOTAL_SLOTS then
    some (day0 + TOTAL_DAYS * usPerDay)
  else none

/-- Function `datetime_to_slot` of `allocation_logic.py` (lines 66-115): horizon clamp,
day index from elapsed time since `day0` (8am), then the 8am-10pm daily-window
clamp, then the final clamp into `[0, TOTAL_SLOTS - 1]`. -/
def datetime_to_slot (dt : ℤ) : ℤ :=
  let horizon_end := day0 + TOTAL_DAYS * usPerDay
  let last_slot_start_dt := (slot_to_datetime (TOTAL_SLOTS - 1)).getD 0
  let dt_clamped := if dt < day0 then day0
    else if horizon_end ≤ dt then last_slot_start_dt
    else dt
  let day_index := (dt_clamped - day0) / usPerDay
  let day_index2 := max 0 (min day_index (TOTAL_DAYS - 1))
  let minutes_into_day := dtHour dt_clamped * 60 + dtMinute dt_clamped
  let slot_in_day :=
    if minutes_into_day < 8 * 60 then 0
    else if GRID_END_HOUR * 60 ≤ minutes_into_day then SLOTS_PER_DAY - 1
    else (minutes_into_day - 8 * 60) / 15
  let slot_in_day2 := max 0 (min slot_in_day (SLOTS_PER_DAY - 1))
  max 0 (min (day_index2 * SLOTS_PER_DAY + slot_in_day2) (TOTAL_SLOTS - 1))

end AllocationLogic

/-!
## Dynamic-grid time helpers, from `allocation_logic_new_new.py`

Same structure, but the daily window `[start_hour, end_hour)` is a parameter
and day 0 starts at `start_hour` on the reference date.
-/

namespace NewNew

def TOTAL_DAYS : ℤ := 7

/-- Function `calculate_dynamic_config` of `allocation_logic_new_new.py` (lines 34-44),
including its two dead safety clamps of negative values to zero. -/
def calculate_dynamic_config (start_hour end_hour : ℤ) : Except String (ℤ × ℤ) :=
  if 0 ≤ start_hour ∧ start_hour < 24 ∧ 0 < end_hour ∧ end_hour ≤ 24 ∧
      start_hour < end_hour then
    let slots_per_day := (end_hour - start_hour) * 4
    let total_slots := slots_per_day * TOTAL_DAYS
    let total_slots2 := if total_slots < 0 then 0 else total_slots
    let slots_per_day2 := if slots_per_day < 0 then 0 else slots_per_day
    Except.ok (slots_per_day2, total_slots2)
  else Except.error "Invalid start/end hours. Must be 0 <= start < end <= 24."

/-- Function `slot_to_datetime` of `allocation_logic_new_new.py` (lines 46-84). -/
def slot_to_datetime (slot start_hour slots_per_day total_slots : ℤ) : Option ℤ :=
  let day0_actual_start := start_hour * usPerHour
  if total_slots ≤ 0 then (if slot = 0 then some day0_actual_start else none)
  else if 0 ≤ slot ∧ slot ≤ total_slots then
    (if slot = total_slots then some (day0_actual_start + TOTAL_DAYS * usPerDay)
     else if slots_per_day ≤ 0 then none
     else some (day0_actual_start + slot / slots_per_day * usPerDay +
                slot % slots_per_day * 15 * usPerMin))
  else none

/-- Function `datetime_to_slot` of `allocation_logic_new_new.py` (lines 86-159):
day index from time elapsed since the schedule start of day 0 (`start_hour`),
daily window clamp from minutes past calendar midnight. -/
def datetime_to_slot (dt start_hour end_hour slots_per_day total_slots : ℤ) : ℤ :=
  let day0_actual_start := start_hour * usPerHour
  if total_slots ≤ 0 then 0
  else
    let horizon_end := day0_actual_start + TOTAL_DAYS * usPerDay
    let last_slot_start_dt :=
      (slot_to_datetime (total_slots - 1) start_hour slots_per_day total_slots).getD 0
    let dt_clamped := if dt < day0_actual_start then day0_actual_start
      else if horizon_end ≤ dt then last_slot_start_dt
      else dt
    let tmins := dt_clamped - day0_actual_start
    let tmins2 := if tmins < 0 then 0 else tmins
    let day_index := tmins2 / usPerDay
    let day_index2 := max 0 (min day_index (TOTAL_DAYS - 1))
    let minutes_into_day := dtHour dt_clamped * 60 + dtMinute dt_clamped
    let slot_in_day :=
      if minutes_into_day < start_hour * 60 then 0
      else if end_hour * 60 ≤ minutes_into_day then slots_per_day - 1
      else (minutes_into_day - start_hour * 60) / 15
    let slot_in_day2 := max 0 (min slot_in_day (slots_per_day - 1))
    max 0 (min (day_index2 * slots_per_day + slot_in_day2) (total_slots - 1))

/-- The configuration-validation front end of
`allocation_logic_new_new.solve_schedule_gurobi` (lines 231-264): a raised
config error and the zero-slot case both return early with status
"Configuration Error" before any model is built; `none` means the solve
proceeds. -/
def configStatus (start_hour end_hour : ℤ) : Option String :=
  match calculate_dynamic_config start_hour end_hour with
  | Except.error _ => some "Configuration Error"
  | Except.ok (_, total_slots) =>
    if total_slots ≤ 0 then some "Configuration Error" else none

end NewNew

/-!
## Configuration front end of `allocation_logic_deadline_penalty.py`
-/

namespace DeadlinePenalty

def TOTAL_DAYS : ℤ := 7

/-- Function `calculate_dynamic_config` of `allocation_logic_deadline_penalty.py`
(lines 34-40); no safety clamps in this variant. -/
def calculate_dynamic_config (start_hour end_hour : ℤ) : Except String (ℤ × ℤ) :=
  if 0 ≤ start_hour ∧ start_hour < 24 ∧ 0 < end_hour ∧ end_hour ≤ 24 ∧
      start_hour < end_hour then
    Except.ok ((end_hour - start_hour) * 4, (end_hour - start_hour) * 4 * TOTAL_DAYS)
  else Except.error "Invalid start/end hours. Must be 0 <= start < end <= 24."

/-- The configuration-validation front end of
`allocation_logic_deadline_penalty.solve_schedule_gurobi` (lines 191-199): a
raised config error returns early with status "Error" (message "Configuration
Error: ..."), while the zero-slot case returns "Configuration Error". -/
def configStatus (start_hour end_hour : ℤ) : Option String :=
  match calculate_dynamic_config start_hour end_hour with
  | Except.error _ => some "Error"
  | Except.ok (_, total_slots) =>
    if total_slots ≤ 0 then some "Configuration Error" else none

end DeadlinePenalty

/-!
## Task records and the Pi eligibility filter, from `allocation_logic.py`

Tasks reach the solver as dictionaries with the fields below (`app.py` builds
them).  The float constant `math.log(10/3)` is embedded as the real
`Real.log (10 / 3)`.
-/

/-- A task dictionary as consumed by `solve_schedule_gurobi`. -/
structure SolverTask where
  id : String
  name : String
  priority : ℤ
  difficulty : ℤ
  duration_slots : ℤ
  deadline_slot : ℤ
  preference : String
deriving DecidableEq

/-- One entry of `unschedulable_tasks_info` (`allocation_logic.py` lines
184-213); the numeric interpolation inside the reason text is elided. -/
structure FilteredTaskInfo where
  id : String
  name : String
  reason : String
  required_duration_min : Option ℤ
  current_duration_min : ℤ
deriving DecidableEq

/-- Constant `LN_10_OVER_3 = math.log(10/3)` (`allocation_logic.py` line 169). -/
noncomputable def LN_10_OVER_3 : ℝ := Real.log (10 / 3)

/-- The per-task body of the pre-filter loop (`allocation_logic.py` lines
175-213): `none` means the task is schedulable, `some info` means it is
reported as filtered out. -/
noncomputable def filterTask (t : SolverTask) : Option FilteredTaskInfo :=
  let duration_min := t.duration_slots * 15
  if t.difficulty ≤ 0 ∨ t.priority ≤ 0 then
    some { id := t.id, name := t.name, reason := "Non-positive difficulty or priority",
           required_duration_min := none, current_duration_min := duration_min }
  else
    let required_duration_min_float : ℝ := ((t.difficulty * t.priority : ℤ) : ℝ) * LN_10_OVER_3
    if (duration_min : ℝ) ≥ required_duration_min_float then none
    else
      some { id := t.id, name := t.name, reason := "Pi < 0.7 condition not met",
             required_duration_min := some ⌈required_duration_min_float⌉,
             current_duration_min := duration_min }

/-- The pre-filter loop (`allocation_logic.py` lines 171-216): splits the task
list into `schedulable_tasks` and `unschedulable_tasks_info`, in input order. -/
noncomputable def preFilterTasks (tasks : List SolverTask) :
    List SolverTask × List FilteredTaskInfo :=
  tasks.foldl (fun acc t =>
    match filterTask t with
    | none => (acc.1 ++ [t], acc.2)
    | some info => (acc.1, acc.2 ++ [info])) ([], [])

/-!
## Solution read-back, from `allocation_logic.py` lines 385-495

The solver is abstract: `sol i s` stands for `X[i, s].X > 0.5` (the code's
`solution_threshold = 0.5`).
-/

namespace AllocationLogic

/-- A schedule record as assembled in `allocation_logic.py` lines 415-426;
`startTime`/`endTime` keep the datetime value whose `isoformat()` the source
emits. -/
structure ScheduleEntry where
  id : String
  name : String
  priority : ℤ
  difficulty : ℤ
  start_slot : ℤ
  end_slot : ℤ
  startTime : ℤ
  endTime : ℤ
  duration_min : ℤ
  preference : String
deriving DecidableEq

/-- The inner scan over `s in range(TOTAL_SLOTS)` for task `i`
(`allocation_logic.py` lines 395-430): the first slot with `X > 0.5` whose
computed `end_slot` does not exceed the horizon (the `continue` branch skips
slots violating it). -/
def firstStart (sol : ℕ → ℕ → Bool) (i : ℕ) (dur : ℤ) : Option ℕ :=
  (List.range TOTAL_SLOTS.toNat).find?
    (fun s => sol i s && decide ((s : ℤ) + dur - 1 < TOTAL_SLOTS))

/-- Record assembly for a task starting at slot `s` (`allocation_logic.py`
lines 406-426), including the defensive clamp of the reported end time to the
22:00 boundary of the start day (lines 409-413). -/
def mkRecord (t : SolverTask) (s : ℕ) : ScheduleEntry :=
  let dur_slots := t.duration_slots
  let end_slot := (s : ℤ) + dur_slots - 1
  let start_dt := (slot_to_datetime (s : ℤ)).getD 0
  let end_dt := start_dt + dur_slots * 15 * usPerMin
  let day_end_limit := start_dt / usPerDay * usPerDay + GRID_END_HOUR * usPerHour
  let end_dt2 := if day_end_limit < end_dt then day_end_limit else end_dt
  { id := t.id, name := t.name, priority := t.priority, difficulty := t.difficulty,
    start_slot := (s : ℤ), end_slot := end_slot, startTime := start_dt,
    endTime := end_dt2, duration_min := dur_slots * 15, preference := t.preference }

/-- List `schedule_records` before sorting: one record per schedulable task that has
a selected start slot. -/
def schedule_records (tasks : List SolverTask) (sol : ℕ → ℕ → Bool) :
    List ScheduleEntry :=
  tasks.enum.filterMap
    (fun p => (firstStart sol p.1 p.2.duration_slots).map (fun s => mkRecord p.2 s))

/-- Sorting step `schedule_records.sort(key=lambda x: x["start_slot"])`
(`allocation_logic.py` line 443). -/
def final_schedule (tasks : List SolverTask) (sol : ℕ → ℕ → Bool) :
    List ScheduleEntry :=
  (schedule_records tasks sol).mergeSort (fun a b => decide (a.start_slot ≤ b.start_slot))

/-- Count `scheduled_task_count = len(scheduled_task_indices_in_solver)`: the number
of solver task indices with a selected start slot. -/
def scheduled_task_count (tasks : List SolverTask) (sol : ℕ → ℕ → Bool) : ℕ :=
  tasks.enum.countP (fun p => (firstStart sol p.1 p.2.duration_slots).isSome)

/-- Python `round(x, 2)` on a non-negative rational: round half to even at two
decimal places. -/
def roundHalfEven (q : ℚ) : ℤ :=
  let f := ⌊q⌋
  if q - f < 1 / 2 then f
  else if (1 : ℚ) / 2 < q - f then f + 1
  else if f % 2 = 0 then f else f + 1

/-- Python `round(q, 2)`. -/
def round2 (q : ℚ) : ℚ := (roundHalfEven (q * 100) : ℚ) / 100

/-- The schedule list placed in the returned dictionary for a solve whose
input is the pre-filter task list `tasks`: the read-back scans
`schedulable_tasks = (preFilterTasks tasks).1`, and the schedule is populated
only when the solver reported a solution (`found`). -/
noncomputable def result_schedule (found : Bool) (tasks : List SolverTask)
    (sol : ℕ → ℕ → Bool) : List ScheduleEntry :=
  if found then final_schedule (preFilterTasks tasks).1 sol else []

/-- The `completion_rate` placed in the returned dictionary
(`allocation_logic.py` lines 483-492): `scheduled_task_count` counts over the
Pi-filtered `schedulable_tasks` the scan iterates, but the denominator is
`original_task_count = len(tasks)`, the length of the pre-filter input list;
`0` when there are no original tasks; rounded to two decimals. -/
noncomputable def result_completion_rate (found : Bool) (tasks : List SolverTask)
    (sol : ℕ → ℕ → Bool) : ℚ :=
  let schedulable_tasks := (preFilterTasks tasks).1
  let original_task_count := tasks.length
  let count : ℕ := if found then scheduled_task_count schedulable_tasks sol else 0
  round2 (if 0 < original_task_count then (count : ℚ) / (original_task_count : ℚ) else 0)

/-- The deadline/horizon start-slot exclusion emitted by the model builder
(`allocation_logic.py` lines 285-297): `X[i, s] = 0` is forced exactly when
`s + dur - 1 > deadline_slot` or `s > TOTAL_SLOTS - dur`. -/
def deadline_horizon_excluded (t : SolverTask) (s : ℕ) : Prop :=
  (s : ℤ) + t.duration_slots - 1 > t.deadline_slot ∨
  (s : ℤ) > TOTAL_SLOTS - t.duration_slots

instance (t : SolverTask) (s : ℕ) : Decidable (deadline_horizon_excluded t s) := by
  unfold deadline_horizon_excluded; infer_instance

end AllocationLogic

/-!
## The `/api/optimize` request handler, from `app.py`
-/

namespace App

/-- A task's `deadline` field after the JSON layer: a number of relative days,
a successfully parsed local datetime string, an unparseable string, or a
missing/invalid-typed value. -/
inductive DeadlineInput where
  | relDays (n : ℤ)
  | localDT (dt : ℤ)
  | badString
  | missing
deriving DecidableEq

/-- A task record of the request payload.  The handler never reads the
`difficulty` field (`app.py` line 301 hardcodes `difficulty = 1`); it is kept
here to state exactly that. -/
structure TaskInput where
  id : Option String
  name : Option String
  priority : Option ℤ
  difficulty : Option ℤ
  duration : Option ℤ
  deadline : DeadlineInput
  preference : Option String
deriving DecidableEq

/-- A `blockedIntervals` record after the JSON layer; `none` start or end
stands for a missing or unparseable time string. -/
structure BlockInput where
  id : Option String
  startTime : Option ℤ
  endTime : Option ℤ
  activity : Option String
deriving DecidableEq

/-- Deadline normalization (`app.py` lines 322-345): a non-negative relative
day count becomes 21:59:59.999999 local on that day (the reference day 0 is
today, so day `n` is `n` days past day-0 midnight); a parsed datetime string
is used as is; anything else is a per-task error. -/
def parseDeadline (d : DeadlineInput) : Except String ℤ :=
  match d with
  | DeadlineInput.relDays n =>
    if 0 ≤ n then
      Except.ok (n * usPerDay + 21 * usPerHour + 59 * usPerMin + 59 * 1000000 + 999999)
    else Except.error "Relative deadline days must be non-negative."
  | DeadlineInput.localDT dt => Except.ok dt
  | DeadlineInput.badString => Except.error "Invalid deadline format."
  | DeadlineInput.missing => Except.error "Deadline is missing or has invalid type."

/-- Body of the task-validation loop (`app.py` lines 297-378) for the task at
index `idx`: `Except.error` collects into `task_errors` and skips the task. -/
def parseTask (idx : ℕ) (t : TaskInput) : Except String SolverTask :=
  let task_id := t.id.getD ("task-input-" ++ toString (idx + 1))
  match t.name with
  | none => Except.error "Name is missing."
  | some name =>
    if name = "" then Except.error "Name is missing."
    else
      let priority := t.priority.getD 1
      let duration_min := t.duration.getD 15
      if duration_min ≤ 0 then Except.error "Duration must be positive."
      else
        let priority2 := max 1 (min priority 5)
        match parseDeadline t.deadline with
        | Except.error e => Except.error e
        | Except.ok deadline_dt_local =>
          if deadline_dt_local < AllocationLogic.day0 then
            Except.error "Deadline cannot be in the past relative to DAY0."
          else
            let deadline_slot := AllocationLogic.datetime_to_slot deadline_dt_local
            let duration_slots := (duration_min + 14) / 15
            let duration_slots2 := if duration_slots ≤ 0 then 1 else duration_slots
            if deadline_slot < duration_slots2 - 1 then
              Except.error "Deadline is too early for the duration."
            else
              Except.ok { id := task_id, name := name, priority := priority2,
                          difficulty := 1, duration_slots := duration_slots2,
                          deadline_slot := deadline_slot,
                          preference := match t.preference with
                            | none => "any"
                            | some p => if p = "" then "any" else lowerStr p }

/-- The task-validation loop: accepted tasks in order, plus `task_errors`. -/
def parseTasks (tasks : List TaskInput) : List SolverTask × List String :=
  tasks.enum.foldl (fun acc p =>
    match parseTask p.1 p.2 with
    | Except.ok pt => (acc.1 ++ [pt], acc.2)
    | Except.error e => (acc.1, acc.2 ++ [e])) ([], [])

/-- Blocked slots produced for one well-formed commitment interval
(`app.py` lines 405-421): all slots from `datetime_to_slot(start)` to
`datetime_to_slot(end - 1 microsecond)`, clamped to the grid; empty when the
range is reversed. -/
def blockedSlotsOfInterval (start_dt end_dt : ℤ) : Finset ℤ :=
  let start_slot := AllocationLogic.datetime_to_slot start_dt
  let end_slot_inclusive := AllocationLogic.datetime_to_slot (end_dt - 1)
  let effective_start_slot := max 0 start_slot
  let effective_end_slot := min (AllocationLogic.TOTAL_SLOTS - 1) end_slot_inclusive
  if effective_start_slot ≤ effective_end_slot then
    Finset.Icc effective_start_slot effective_end_slot
  else ∅

/-- The blocked-interval loop (`app.py` lines 380-421): the keys of
`parsed_commitments` plus `commitment_errors`. -/
def parseCommitments (blocks : List BlockInput) : Finset ℤ × List String :=
  blocks.foldl (fun acc b =>
    match b.startTime, b.endTime with
    | some start_dt, some end_dt =>
      if end_dt ≤ start_dt then
        (acc.1, acc.2 ++ ["End time must be after start time."])
      else (acc.1 ∪ blockedSlotsOfInterval start_dt end_dt, acc.2)
    | _, _ => (acc.1, acc.2 ++ ["Start and end times are required."])) (∅, [])

/-- The response value assembled by `optimize_schedule`; only the fields the
no-task branch and the solver branch both carry. -/
structure OptimizeResponse where
  status : String
  schedule : List AllocationLogic.ScheduleEntry
  total_leisure : ℚ
  total_stress : ℚ
  message : String
  warnings : List String
deriving DecidableEq

/-- Handler `optimize_schedule` (`app.py` lines 269-495) over already-JSON-decoded
input, with the MILP solve abstracted as `solver`.  Task errors abort with
HTTP 400 (`Except.error`); commitment errors become warnings; with no valid
tasks the baseline-leisure result is returned without calling the solver.
The id-remapping pass over `results["schedule"]` (lines 469-486) rewrites
each entry id to the identical input id and is the identity here. -/
def optimize_schedule (solver : List SolverTask → Finset ℤ → OptimizeResponse)
    (tasks_input : List TaskInput) (blocked_input : List BlockInput) :
    Except (List String) OptimizeResponse :=
  let parsed := parseTasks tasks_input
  let commitments := parseCommitments blocked_input
  if parsed.2 = [] then
    let results :=
      if parsed.1 = [] then
        { status := "Optimal", schedule := [],
          total_leisure := ((AllocationLogic.TOTAL_SLOTS * 15 -
            (commitments.1.card : ℤ) * 15 : ℤ) : ℚ),
          total_stress := 0,
          message := "No valid tasks provided to schedule.", warnings := [] }
      else solver parsed.1 commitments.1
    Except.ok { results with warnings := results.warnings ++ commitments.2 }
  else Except.error parsed.2

end App

/-!
## Concrete instances used by witnesses and counterexamples
-/

/-- Witness data for C3 and C4: one two-slot task. -/
def wTask : SolverTask :=
  { id := "t", name := "T", priority := 1, difficulty := 1,
    duration_slots := 2, deadline_slot := 5, preference := "any" }

/-- Witness data for C3 and C4: a solver answer starting the task at slot 2. -/
def wSol : ℕ → ℕ → Bool := fun i s => decide (i = 0 ∧ s = 2)

/-- C8 counterexample data: three admissible tasks. -/
def c8Tasks : List SolverTask :=
  [{ id := "a", name := "A", priority := 1, difficulty := 1, duration_slots := 2,
     deadline_slot := 391, preference := "any" },
   { id := "b", name := "B", priority := 1, difficulty := 1, duration_slots := 2,
     deadline_slot := 391, preference := "any" },
   { id := "c", name := "C", priority := 1, difficulty := 1, duration_slots := 2,
     deadline_slot := 391, preference := "any" }]

/-- C8 counterexample data: a solver answer scheduling only the first task. -/
def c8Sol : ℕ → ℕ → Bool := fun i s => decide (i = 0 ∧ s = 0)

/-- Witness data for C10: a payload task that carries difficulty 5. -/
def c10Input : App.TaskInput :=
  { id := some "t1", name := some "Essay", priority := some 3,
    difficulty := some 5, duration := some 60,
    deadline := App.DeadlineInput.relDays 2, preference := none }

/-- The parsed record for `c10Input`. -/
def c10Parsed : SolverTask :=
  { id := "t1", name := "Essay", priority := 3, difficulty := 1,
    duration_slots := 4, deadline_slot := 167, preference := "any" }

/-!
## Claim C2: slot/datetime round trip (dynamic grid)
-/

/-- C2: for every valid grid configuration produced by
`calculate_dynamic_config` and every slot index `s` in `[0, total_slots)`,
converting the slot to its start datetime and back yields the same index:
`datetime_to_slot (slot_to_datetime s) = s`. -/
theorem c2_slot_roundtrip (start_hour end_hour slots_per_day total_slots s dt : ℤ)
    (hcfg : NewNew.calculate_dynamic_config start_hour end_hour =
      Except.ok (slots_per_day, total_slots))
    (hs0 : 0 ≤ s) (hs : s < total_slots)
    (hdt : NewNew.slot_to_datetime s start_hour slots_per_day total_slots = some dt) :
    NewNew.datetime_to_slot dt start_hour end_hour slots_per_day total_slots = s := by
  unfold NewNew.calculate_dynamic_config at hcfg
  split at hcfg
  case isFalse => exact absurd hcfg (by simp)
  case isTrue hvalid =>
  simp only [NewNew.TOTAL_DAYS] at hcfg
  rw [if_neg (by omega), if_neg (by omega)] at hcfg
  simp only [Except.ok.injEq, Prod.mk.injEq] at hcfg
  obtain ⟨hspd, hts⟩ := hcfg
  obtain ⟨k, rfl⟩ : ∃ k, end_hour = start_hour + k := ⟨end_hour - start_hour, by ring⟩
  have hk1 : 1 ≤ k := by omega
  have hk2 : k ≤ 24 := by omega
  have hspd2 : slots_per_day = k * 4 := by omega
  subst hspd2
  have hts2 : total_slots = k * 4 * 7 := by omega
  subst hts2
  clear hspd hts
  unfold NewNew.slot_to_datetime at hdt
  rw [if_neg (by omega), if_pos (by omega), if_neg (by omega), if_neg (by omega)] at hdt
  simp only [Option.some.injEq] at hdt
  subst hdt
  unfold NewNew.datetime_to_slot
  simp only [dtHour, dtMinute, NewNew.TOTAL_DAYS, usPerDay, usPerHour, usPerMin]
  generalize (NewNew.slot_to_datetime (k * 4 * 7 - 1) start_hour (k * 4)
    (k * 4 * 7)).getD 0 = L
  interval_cases k <;> (split_ifs <;> omega)

/-- Witness for C2 at the default configuration and the last slot. -/
theorem c2_slot_roundtrip_witness :
    NewNew.calculate_dynamic_config 8 22 = Except.ok (56, 392) ∧
    (0 : ℤ) ≤ 391 ∧ (391 : ℤ) < 392 ∧
    NewNew.slot_to_datetime 391 8 56 392 = some 596700000000 ∧
    NewNew.datetime_to_slot 596700000000 8 22 56 392 = 391 :=
  ⟨by rfl, by decide, by decide, by rfl,
   c2_slot_roundtrip 8 22 56 392 391 596700000000 (by rfl) (by decide)
     (by decide) (by rfl)⟩

/-!
## Claim C6: clamping at the horizon boundaries (fixed grid)
-/

/-- C6 counterexample: at the claim's own input `day0_midnight + 7 days +
1 minute` (= 10081 minutes past day-0 midnight), `datetime_to_slot` returns
336 (the first slot of day 6), not `total_slots - 1 = 391`: the input lies
before the horizon end `day0 + 7 days` (= 8am of day 7), so the far clamp
does not fire. -/
theorem c6_counterexample :
    AllocationLogic.datetime_to_slot ((7 * 1440 + 1) * usPerMin) = 336 ∧
    ¬ AllocationLogic.datetime_to_slot ((7 * 1440 + 1) * usPerMin) =
        AllocationLogic.TOTAL_SLOTS - 1 := by
  decide

/-- C6 amended: `datetime_to_slot (day0_midnight - 1 min) = 0`; the far clamp
applies from `day0 + 7 days` onward where `day0 = day0_midnight + 8 h`, so
`datetime_to_slot (day0 + 7 days + 1 min) = total_slots - 1`, while the
claim's input `day0_midnight + 7 days + 1 min` maps to slot 336. -/
theorem c6_amended_clamping :
    AllocationLogic.datetime_to_slot (-(60000000 : ℤ)) = 0 ∧
    AllocationLogic.datetime_to_slot ((7 * 1440 + 1) * usPerMin) = 336 ∧
    AllocationLogic.datetime_to_slot ((480 + 7 * 1440 + 1) * usPerMin) =
      AllocationLogic.TOTAL_SLOTS - 1 := by
  decide

/-!
## Claim C9: configuration errors
-/

/-- C9 amended: for every invalid hour pair (violating
`0 ≤ start_hour < end_hour ≤ 24`) the solve fails before any model is built;
the contextual variant (`allocation_logic_new_new.py`) returns status
"Configuration Error", while the deadline-penalty variant
(`allocation_logic_deadline_penalty.py`) returns status "Error".  For valid
pairs `total_slots = 28 * (end_hour - start_hour) > 0`, so the zero-slot
branch is unreachable. -/
theorem c9_config_error (start_hour end_hour : ℤ)
    (h : ¬ (0 ≤ start_hour ∧ start_hour < end_hour ∧ end_hour ≤ 24)) :
    NewNew.configStatus start_hour end_hour = some "Configuration Error" ∧
    DeadlinePenalty.configStatus start_hour end_hour = some "Error" := by
  have hc : ¬ (0 ≤ start_hour ∧ start_hour < 24 ∧ 0 < end_hour ∧ end_hour ≤ 24 ∧
      start_hour < end_hour) := by omega
  unfold NewNew.configStatus NewNew.calculate_dynamic_config
    DeadlinePenalty.configStatus DeadlinePenalty.calculate_dynamic_config
  rw [if_neg hc, if_neg hc]
  exact ⟨rfl, rfl⟩

/-- Witness for C9 at the invalid pair (22, 8). -/
theorem c9_config_error_witness :
    ¬ ((0 : ℤ) ≤ 22 ∧ (22 : ℤ) < 8 ∧ (8 : ℤ) ≤ 24) ∧
    (NewNew.configStatus 22 8 = some "Configuration Error" ∧
      DeadlinePenalty.configStatus 22 8 = some "Error") :=
  ⟨by decide, c9_config_error 22 8 (by decide)⟩

/-- C9 counterexample: on the invalid pair (22, 8) the deadline-penalty
variant returns status "Error", not "Configuration Error" as the claim
states. -/
theorem c9_counterexample :
    DeadlinePenalty.configStatus 22 8 = some "Error" ∧
    ¬ DeadlinePenalty.configStatus 22 8 = some "Configuration Error" := by
  decide

/-!
## Claim C5: blocked slots of a commitment interval
-/

/-- Function `datetime_to_slot` never returns a negative index (its last line clamps
with `max 0`). -/
lemma datetime_to_slot_nonneg (dt : ℤ) : 0 ≤ AllocationLogic.datetime_to_slot dt := by
  unfold AllocationLogic.datetime_to_slot
  exact le_max_left 0 _

/-- Function `datetime_to_slot` never exceeds `TOTAL_SLOTS - 1` (final clamp). -/
lemma datetime_to_slot_le (dt : ℤ) :
    AllocationLogic.datetime_to_slot dt ≤ AllocationLogic.TOTAL_SLOTS - 1 := by
  unfold AllocationLogic.datetime_to_slot
  exact max_le (by decide) (min_le_right _ _)

/-- The blocked set of one commitment interval is exactly the integer interval
from `datetime_to_slot start` to `datetime_to_slot (end - 1 microsecond)`:
the `max 0` and `min (TOTAL_SLOTS - 1)` clamps of the source are redundant
because `datetime_to_slot` already lands in the grid. -/
lemma blockedSlotsOfInterval_eq (t1 t2 : ℤ) :
    App.blockedSlotsOfInterval t1 t2 =
      Finset.Icc (AllocationLogic.datetime_to_slot t1)
        (AllocationLogic.datetime_to_slot (t2 - 1)) := by
  simp only [App.blockedSlotsOfInterval]
  rw [max_eq_right (datetime_to_slot_nonneg t1),
    min_eq_right (datetime_to_slot_le (t2 - 1))]
  split_ifs with h
  · rfl
  · exact (Finset.Icc_eq_empty h).symm

/-- One microsecond before the start of slot `k` (for `1 ≤ k ≤ 391`) maps to a
strictly earlier slot. -/
lemma datetime_to_slot_pred_slot_start (k d : ℤ) (hk1 : 1 ≤ k)
    (hk2 : k ≤ AllocationLogic.TOTAL_SLOTS - 1)
    (hd : AllocationLogic.slot_to_datetime k = some d) :
    AllocationLogic.datetime_to_slot (d - 1) < k := by
  have hTS : AllocationLogic.TOTAL_SLOTS = 392 := by decide
  unfold AllocationLogic.slot_to_datetime at hd
  rw [if_pos (show 0 ≤ k ∧ k < AllocationLogic.TOTAL_SLOTS by omega)] at hd
  simp only [Option.some.injEq] at hd
  subst hd
  have hlast : (AllocationLogic.slot_to_datetime (AllocationLogic.TOTAL_SLOTS - 1)).getD 0 =
      596700000000 := by decide
  unfold AllocationLogic.datetime_to_slot
  simp only [hlast]
  simp only [AllocationLogic.day0, AllocationLogic.TOTAL_SLOTS,
    AllocationLogic.SLOTS_PER_DAY, AllocationLogic.TOTAL_DAYS,
    AllocationLogic.GRID_END_HOUR, dtHour, dtMinute, usPerDay, usPerHour, usPerMin]
  split_ifs <;> omega

/-- C5 amended: for a well-formed commitment interval `[t1, t2)` the produced
blocked set equals the set of slot indices in the closed interval
`[datetime_to_slot t1, datetime_to_slot (t2 - 1 microsecond)]` (empty when
that interval is reversed); and for `k ≥ 1`, a commitment ending exactly at
the start of slot `k` does not block slot `k`. -/
theorem c5_blocked_interval (t1 t2 : ℤ) (h : t1 < t2) :
    App.blockedSlotsOfInterval t1 t2 =
      Finset.Icc (AllocationLogic.datetime_to_slot t1)
        (AllocationLogic.datetime_to_slot (t2 - 1)) ∧
    (∀ k d : ℤ, 1 ≤ k → k ≤ AllocationLogic.TOTAL_SLOTS - 1 →
      AllocationLogic.slot_to_datetime k = some d → t1 < d →
      k ∉ App.blockedSlotsOfInterval t1 d) := by
  refine ⟨blockedSlotsOfInterval_eq t1 t2, ?_⟩
  intro k d hk1 hk2 hd _
  rw [blockedSlotsOfInterval_eq]
  simp only [Finset.mem_Icc, not_and, not_le]
  intro _
  exact datetime_to_slot_pred_slot_start k d hk1 hk2 hd

/-- Witness for C5 at the interval from day-0 midnight to one minute later. -/
theorem c5_blocked_interval_witness :
    (0 : ℤ) < 60000000 ∧
    (App.blockedSlotsOfInterval 0 60000000 =
      Finset.Icc (AllocationLogic.datetime_to_slot 0)
        (AllocationLogic.datetime_to_slot (60000000 - 1)) ∧
    (∀ k d : ℤ, 1 ≤ k → k ≤ AllocationLogic.TOTAL_SLOTS - 1 →
      AllocationLogic.slot_to_datetime k = some d → (0 : ℤ) < d →
      k ∉ App.blockedSlotsOfInterval 0 d)) :=
  ⟨by decide, c5_blocked_interval 0 60000000 (by decide)⟩

/-- C5 counterexample.  First conjunct: for the commitment from day 0 21:00 to
day 1 09:00 the produced blocked set (slots 52..59) is not the image
`{datetime_to_slot x : t1 ≤ x ≤ t2 - 1}`, because early-morning times of day 1
(e.g. day 1 midnight) map back to slot 0, which is in the image but not in the
blocked set.  Second conjunct: a commitment from 07:30 to 08:00 ends exactly at
the start of slot 0 and nevertheless blocks slot 0. -/
theorem c5_counterexample :
    ¬ ((App.blockedSlotsOfInterval (1260 * usPerMin) (1980 * usPerMin) : Finset ℤ) : Set ℤ) =
        { n : ℤ | ∃ x : ℤ, 1260 * usPerMin ≤ x ∧ x ≤ 1980 * usPerMin - 1 ∧
          AllocationLogic.datetime_to_slot x = n } ∧
    (0 : ℤ) ∈ App.blockedSlotsOfInterval (450 * usPerMin) (480 * usPerMin) := by
  constructor
  · intro hEq
    have h0 : (0 : ℤ) ∈ { n : ℤ | ∃ x : ℤ, 1260 * usPerMin ≤ x ∧ x ≤ 1980 * usPerMin - 1 ∧
        AllocationLogic.datetime_to_slot x = n } :=
      ⟨1440 * usPerMin, by decide, by decide, by decide⟩
    rw [← hEq] at h0
    exact absurd (Finset.mem_coe.mp h0) (by decide)
  · decide

/-!
## Shared facts about the solution read-back
-/

/-- Membership in the sorted schedule comes from a task/start-slot pair. -/
lemma mem_final_schedule {tasks : List SolverTask} {sol : ℕ → ℕ → Bool}
    {e : AllocationLogic.ScheduleEntry} :
    e ∈ AllocationLogic.final_schedule tasks sol ↔
      ∃ p ∈ tasks.enum, ∃ s,
        AllocationLogic.firstStart sol p.1 p.2.duration_slots = some s ∧
        AllocationLogic.mkRecord p.2 s = e := by
  unfold AllocationLogic.final_schedule AllocationLogic.schedule_records
  rw [List.mem_mergeSort, List.mem_filterMap]
  constructor
  · rintro ⟨p, hp, hm⟩
    obtain ⟨s, hs, he⟩ := Option.map_eq_some'.mp hm
    exact ⟨p, hp, s, hs, he⟩
  · rintro ⟨p, hp, s, hs, he⟩
    exact ⟨p, hp, by rw [hs]; simpa using he⟩

/-- What the scan guarantees about a selected start slot. -/
lemma firstStart_some {sol : ℕ → ℕ → Bool} {i : ℕ} {dur : ℤ} {s : ℕ}
    (h : AllocationLogic.firstStart sol i dur = some s) :
    sol i s = true ∧ (s : ℤ) + dur - 1 < AllocationLogic.TOTAL_SLOTS ∧
    s < AllocationLogic.TOTAL_SLOTS.toNat := by
  have h1 := List.find?_some h
  have h2 := List.mem_range.mp (List.mem_of_find?_eq_some h)
  simp only [Bool.and_eq_true, decide_eq_true_eq] at h1
  exact ⟨h1.1, h1.2, h2⟩

/-- Unfolding of the filter loop accumulator. -/
lemma preFilter_foldl (tasks : List SolverTask)
    (acc : List SolverTask × List FilteredTaskInfo) :
    tasks.foldl (fun acc t =>
      match filterTask t with
      | none => (acc.1 ++ [t], acc.2)
      | some info => (acc.1, acc.2 ++ [info])) acc =
    (acc.1 ++ tasks.filter (fun t => (filterTask t).isNone),
     acc.2 ++ tasks.filterMap (fun t => filterTask t)) := by
  induction tasks generalizing acc with
  | nil => simp
  | cons t ts ih =>
    simp only [List.foldl_cons, List.filter_cons, List.filterMap_cons]
    cases h : filterTask t with
    | none => simp [h, ih]
    | some info => simp [h, ih]

/-- The filter loop splits the input by `filterTask`, keeping input order. -/
lemma preFilterTasks_eq (tasks : List SolverTask) :
    preFilterTasks tasks =
      (tasks.filter (fun t => (filterTask t).isNone),
       tasks.filterMap (fun t => filterTask t)) := by
  unfold preFilterTasks
  rw [preFilter_foldl]
  simp

/-!
## Claim C3: deadline and horizon constraints
-/

/-- C3: if the solution respects the deadline/horizon start-slot exclusions
the model builder emits (`X[i, s] = 0` whenever `s + dur - 1 > deadline_slot`
or `s + dur > total_slots`), then every entry of the returned schedule ends no
later than its task's clamped deadline slot and stays inside the horizon. -/
theorem c3_deadline_horizon (tasks : List SolverTask) (sol : ℕ → ℕ → Bool)
    (hconstr : ∀ p ∈ tasks.enum, ∀ s ∈ List.range AllocationLogic.TOTAL_SLOTS.toNat,
      AllocationLogic.deadline_horizon_excluded p.2 s → sol p.1 s = false) :
    ∀ e ∈ AllocationLogic.final_schedule tasks sol,
      ∃ (i : ℕ) (t : SolverTask), tasks[i]? = some t ∧ e.id = t.id ∧ e.name = t.name ∧
        e.end_slot ≤ t.deadline_slot ∧ e.end_slot < AllocationLogic.TOTAL_SLOTS := by
  intro e he
  obtain ⟨p, hp, s, hs, rfl⟩ := mem_final_schedule.mp he
  obtain ⟨hsol, hhor, hrange⟩ := firstStart_some hs
  have hnotex : ¬ AllocationLogic.deadline_horizon_excluded p.2 s := by
    intro hex
    have hz := hconstr p hp s (List.mem_range.mpr hrange) hex
    rw [hz] at hsol
    exact Bool.false_ne_true hsol
  unfold AllocationLogic.deadline_horizon_excluded at hnotex
  push_neg at hnotex
  refine ⟨p.1, p.2, List.mem_enum_iff_getElem?.mp hp, rfl, rfl, ?_, ?_⟩
  · show (s : ℤ) + p.2.duration_slots - 1 ≤ p.2.deadline_slot
    exact hnotex.1
  · show (s : ℤ) + p.2.duration_slots - 1 < AllocationLogic.TOTAL_SLOTS
    exact hhor

/-- Witness for C3: one task of two slots, solution starting it at slot 2. -/
theorem c3_deadline_horizon_witness :
    (∀ p ∈ ([wTask] : List SolverTask).enum,
      ∀ s ∈ List.range AllocationLogic.TOTAL_SLOTS.toNat,
      AllocationLogic.deadline_horizon_excluded p.2 s → wSol p.1 s = false) ∧
    (∀ e ∈ AllocationLogic.final_schedule [wTask] wSol,
      ∃ (i : ℕ) (t : SolverTask), ([wTask] : List SolverTask)[i]? = some t ∧
        e.id = t.id ∧ e.name = t.name ∧
        e.end_slot ≤ t.deadline_slot ∧ e.end_slot < AllocationLogic.TOTAL_SLOTS) :=
  ⟨by decide, c3_deadline_horizon [wTask] wSol (by decide)⟩

/-!
## Claim C4: schedule entry invariant
-/

/-- C4: when every input task occupies at least one slot, every returned entry
satisfies `end_slot = start_slot + ceil(duration_min / 15) - 1` and
`0 ≤ start_slot ≤ end_slot < total_slots`, and the schedule is sorted by
`start_slot` ascending. -/
theorem c4_entry_invariant (tasks : List SolverTask) (sol : ℕ → ℕ → Bool)
    (hdur : ∀ t ∈ tasks, 1 ≤ t.duration_slots) :
    (∀ e ∈ AllocationLogic.final_schedule tasks sol,
        e.end_slot = e.start_slot + ⌈(e.duration_min : ℚ) / 15⌉ - 1 ∧
        0 ≤ e.start_slot ∧ e.start_slot ≤ e.end_slot ∧
        e.end_slot < AllocationLogic.TOTAL_SLOTS) ∧
    List.Sorted (fun a b : AllocationLogic.ScheduleEntry => a.start_slot ≤ b.start_slot)
      (AllocationLogic.final_schedule tasks sol) := by
  constructor
  · intro e he
    obtain ⟨p, hp, s, hs, rfl⟩ := mem_final_schedule.mp he
    obtain ⟨hsol, hhor, hrange⟩ := firstStart_some hs
    have hmem : p.2 ∈ tasks := List.get?_mem (List.mem_enum_iff_get?.mp hp)
    have hd := hdur p.2 hmem
    have hceil : ⌈((p.2.duration_slots * 15 : ℤ) : ℚ) / 15⌉ = p.2.duration_slots := by
      push_cast
      rw [mul_div_assoc]
      norm_num
    refine ⟨?_, ?_, ?_, ?_⟩
    · show (s : ℤ) + p.2.duration_slots - 1 =
        (s : ℤ) + ⌈((p.2.duration_slots * 15 : ℤ) : ℚ) / 15⌉ - 1
      rw [hceil]
    · show (0 : ℤ) ≤ (s : ℕ)
      exact Int.natCast_nonneg s
    · show (s : ℤ) ≤ (s : ℤ) + p.2.duration_slots - 1
      omega
    · exact hhor
  · have hsorted := @List.sorted_mergeSort AllocationLogic.ScheduleEntry
      (fun a b => decide (a.start_slot ≤ b.start_slot))
      (fun a b c hab hbc => by
        simp only [decide_eq_true_eq] at *
        exact le_trans hab hbc)
      (fun a b => by
        simp only [Bool.or_eq_true, decide_eq_true_eq]
        exact le_total a.start_slot b.start_slot)
      (AllocationLogic.schedule_records tasks sol)
    exact hsorted.imp (fun h => of_decide_eq_true h)

/-- Witness for C4 with the concrete one-task instance. -/
theorem c4_entry_invariant_witness :
    (∀ t ∈ ([wTask] : List SolverTask), 1 ≤ t.duration_slots) ∧
    ((∀ e ∈ AllocationLogic.final_schedule [wTask] wSol,
        e.end_slot = e.start_slot + ⌈(e.duration_min : ℚ) / 15⌉ - 1 ∧
        0 ≤ e.start_slot ∧ e.start_slot ≤ e.end_slot ∧
        e.end_slot < AllocationLogic.TOTAL_SLOTS) ∧
    List.Sorted (fun a b : AllocationLogic.ScheduleEntry => a.start_slot ≤ b.start_slot)
      (AllocationLogic.final_schedule [wTask] wSol)) :=
  ⟨by decide, c4_entry_invariant [wTask] wSol (by decide)⟩

/-!
## Claim C8: completion rate
-/

/-- Length of a `filterMap` counted by definedness. -/
lemma length_filterMap_eq_countP {α β : Type} (f : α → Option β) (l : List α) :
    (l.filterMap f).length = l.countP (fun a => (f a).isSome) := by
  induction l with
  | nil => rfl
  | cons a l ih =>
    cases h : f a <;>
      simp [List.filterMap_cons, h, List.countP_cons, ih]

/-- The sorted schedule has exactly one entry per scheduled task index. -/
lemma final_schedule_length (tasks : List SolverTask) (sol : ℕ → ℕ → Bool) :
    (AllocationLogic.final_schedule tasks sol).length =
      AllocationLogic.scheduled_task_count tasks sol := by
  unfold AllocationLogic.final_schedule AllocationLogic.schedule_records
    AllocationLogic.scheduled_task_count
  rw [List.length_mergeSort, length_filterMap_eq_countP]
  congr 1
  funext p
  exact Option.isSome_map

/-- C8 amended: the returned completion rate equals the number of schedule
entries divided by the number of original input tasks, rounded half-to-even
to two decimal places (and 0 when there are no input tasks). -/
theorem c8_completion_rate (found : Bool) (tasks : List SolverTask)
    (sol : ℕ → ℕ → Bool) :
    AllocationLogic.result_completion_rate found tasks sol =
      AllocationLogic.round2 (if 0 < tasks.length then
        ((AllocationLogic.result_schedule found tasks sol).length : ℚ) / (tasks.length : ℚ)
      else 0) := by
  unfold AllocationLogic.result_completion_rate AllocationLogic.result_schedule
  cases found with
  | false => simp
  | true => simp [final_schedule_length]

/-- Each C8 counterexample task passes the Pi filter: 30 minutes is at least
`1 * 1 * ln(10/3)`. -/
lemma c8_filterTask_none (t : SolverTask) (hd : t.difficulty = 1)
    (hp : t.priority = 1) (hdur : t.duration_slots = 2) : filterTask t = none := by
  have hpos : ((t.duration_slots * 15 : ℤ) : ℝ) ≥
      ((t.difficulty * t.priority : ℤ) : ℝ) * Real.log (10 / 3) := by
    rw [hd, hp, hdur]
    have hlog := Real.log_le_sub_one_of_pos (show (0 : ℝ) < 10 / 3 by norm_num)
    push_cast
    linarith
  simp only [filterTask, LN_10_OVER_3]
  rw [if_neg (by omega : ¬ (t.difficulty ≤ 0 ∨ t.priority ≤ 0)), if_pos hpos]

/-- The Pi filter keeps all three C8 counterexample tasks. -/
lemma preFilterTasks_c8Tasks : (preFilterTasks c8Tasks).1 = c8Tasks := by
  have hall : ∀ t ∈ c8Tasks, filterTask t = none := by
    intro t ht
    simp only [c8Tasks, List.mem_cons, List.not_mem_nil, or_false] at ht
    rcases ht with rfl | rfl | rfl <;> exact c8_filterTask_none _ rfl rfl rfl
  rw [preFilterTasks_eq]
  show c8Tasks.filter (fun t => (filterTask t).isNone) = c8Tasks
  exact List.filter_eq_self.mpr (fun a ha => by rw [hall a ha]; rfl)

/-- C8 counterexample: with three input tasks (all admitted by the Pi filter)
and one scheduled entry the returned completion rate is `0.33`, not `1/3`:
`round(x, 2)` loses the exact quotient. -/
theorem c8_counterexample :
    AllocationLogic.result_completion_rate true c8Tasks c8Sol ≠
      ((AllocationLogic.result_schedule true c8Tasks c8Sol).length : ℚ) /
        (c8Tasks.length : ℚ) := by
  have h1 : AllocationLogic.scheduled_task_count c8Tasks c8Sol = 1 := by decide
  have h2 : (AllocationLogic.result_schedule true c8Tasks c8Sol).length = 1 := by
    show (AllocationLogic.final_schedule (preFilterTasks c8Tasks).1 c8Sol).length = 1
    rw [preFilterTasks_c8Tasks, final_schedule_length]
    exact h1
  have h3 : c8Tasks.length = 3 := by decide
  have hf : ⌊(100 : ℚ) / 3⌋ = 33 := by
    rw [Int.floor_eq_iff]
    constructor <;> norm_num
  have h4 : AllocationLogic.roundHalfEven ((100 : ℚ) / 3) = 33 := by
    unfold AllocationLogic.roundHalfEven
    rw [hf]
    norm_num
  have h4b : AllocationLogic.roundHalfEven ((1 : ℚ) / 3 * 100) = 33 := by
    rw [show ((1 : ℚ) / 3 * 100) = 100 / 3 by ring]
    exact h4
  simp only [AllocationLogic.result_completion_rate, AllocationLogic.round2,
    preFilterTasks_c8Tasks]
  rw [h2, h3]
  simp only [h1, if_pos, ite_true]
  norm_num [h4, h4b]

/-!
## Claim C1: the Pi eligibility filter
-/

/-- C7: with `tasks = []` and `blockedIntervals = []` the handler returns
status "Optimal", an empty schedule, and raw total leisure
`TOTAL_SLOTS * 15 = 392 * 15 = 5880` minutes, without calling the solver. -/
theorem c7_trivial_request
    (solver : List SolverTask → Finset ℤ → App.OptimizeResponse) :
    App.optimize_schedule solver [] [] =
      Except.ok { status := "Optimal", schedule := [],
                  total_leisure := 5880, total_stress := 0,
                  message := "No valid tasks provided to schedule.",
                  warnings := [] } := by
  unfold App.optimize_schedule App.parseTasks App.parseCommitments
  norm_num [AllocationLogic.TOTAL_SLOTS, AllocationLogic.SLOTS_PER_DAY,
    AllocationLogic.TOTAL_DAYS]

/-!
## Claim C10: the handler hardcodes difficulty 1
-/

/-- Unfolding of the task-validation loop accumulator. -/
lemma parseTasks_foldl (ps : List (ℕ × App.TaskInput))
    (acc : List SolverTask × List String) :
    ps.foldl (fun acc p =>
      match App.parseTask p.1 p.2 with
      | Except.ok pt => (acc.1 ++ [pt], acc.2)
      | Except.error e => (acc.1, acc.2 ++ [e])) acc =
    (acc.1 ++ ps.filterMap (fun p => (App.parseTask p.1 p.2).toOption),
     acc.2 ++ ps.filterMap (fun p =>
       match App.parseTask p.1 p.2 with
       | Except.ok _ => none
       | Except.error e => some e)) := by
  induction ps generalizing acc with
  | nil => simp
  | cons p ps ih =>
    simp only [List.foldl_cons, List.filterMap_cons]
    cases h : App.parseTask p.1 p.2 with
    | ok pt => simp [h, ih, Except.toOption]
    | error e => simp [h, ih, Except.toOption]

/-- The accepted tasks are those on which `parseTask` succeeds. -/
lemma parseTasks_fst (tasks : List App.TaskInput) :
    (App.parseTasks tasks).1 =
      tasks.enum.filterMap (fun p => (App.parseTask p.1 p.2).toOption) := by
  unfold App.parseTasks
  rw [parseTasks_foldl]
  simp

/-- Every successfully parsed task record carries difficulty 1. -/
lemma parseTask_ok_difficulty {i : ℕ} {t : App.TaskInput} {pt : SolverTask}
    (h : App.parseTask i t = Except.ok pt) : pt.difficulty = 1 := by
  unfold App.parseTask at h
  cases hn : t.name with
  | none =>
    rw [hn] at h
    exact absurd h (by simp)
  | some name =>
    rw [hn] at h
    dsimp only at h
    cases hdl : App.parseDeadline t.deadline with
    | error e =>
      rw [hdl] at h
      dsimp only at h
      split_ifs at h
    | ok deadline_dt_local =>
      rw [hdl] at h
      dsimp only at h
      split_ifs at h <;> injection h with h2 <;> rw [← h2]

/-- C10: every task record the request handler passes to the solver has
difficulty 1, whatever difficulty the request payload carried; hence its Pi
admissibility threshold reduces to `priority * ln(10/3)` and it never reaches
the default hard-task threshold 4. -/
theorem c10_difficulty_hardcoded (tasks_input : List App.TaskInput)
    (pt : SolverTask) (hpt : pt ∈ (App.parseTasks tasks_input).1) :
    pt.difficulty = 1 ∧
    ((pt.difficulty * pt.priority : ℤ) : ℝ) * Real.log (10 / 3) =
      ((pt.priority : ℤ) : ℝ) * Real.log (10 / 3) ∧
    ¬ (4 : ℤ) ≤ pt.difficulty := by
  rw [parseTasks_fst] at hpt
  obtain ⟨p, hp, hok⟩ := List.mem_filterMap.mp hpt
  have hok2 : App.parseTask p.1 p.2 = Except.ok pt := by
    cases h : App.parseTask p.1 p.2 with
    | ok v =>
      rw [h] at hok
      simp only [Except.toOption, Option.some.injEq] at hok
      rw [hok]
    | error e =>
      rw [h] at hok
      simp [Except.toOption] at hok
  have h1 := parseTask_ok_difficulty hok2
  refine ⟨h1, ?_, by omega⟩
  rw [h1]
  norm_num

/-- Witness for C10: parsing `c10Input` yields a record with difficulty 1. -/
theorem c10_difficulty_hardcoded_witness :
    c10Parsed ∈ (App.parseTasks [c10Input]).1 ∧
    (c10Parsed.difficulty = 1 ∧
     ((c10Parsed.difficulty * c10Parsed.priority : ℤ) : ℝ) * Real.log (10 / 3) =
       ((c10Parsed.priority : ℤ) : ℝ) * Real.log (10 / 3) ∧
     ¬ (4 : ℤ) ≤ c10Parsed.difficulty) :=
  ⟨by decide, c10_difficulty_hardcoded [c10Input] c10Parsed (by decide)⟩

end Sched
